import Mathlib

/-!
Shallow embedding of the WoWsShips fetch pipeline (src/main.py and src/get.py).

Python JSON-like values are modelled by `PyVal`.  Dictionaries are association
lists in insertion order (Python dicts preserve insertion order and never hold
a duplicate key).  Fallible Python code (attribute errors, type errors, the
explicit RuntimeError raised by `update_cache_full`) is modelled with
`Except PyErr`.  Effects are made explicit: the filesystem is the list of
existing paths, the network is a predicate telling which URLs download
successfully, and `time.sleep`/`print` have no observable effect on the values
the spec talks about, so they are not modelled.
-/

/-- A Python/JSON value as it appears in the scripts: `None`, booleans,
integers, strings, lists and (insertion-ordered) dicts with string keys. -/
inductive PyVal where
  | none : PyVal
  | bool : Bool → PyVal
  | int : Int → PyVal
  | str : String → PyVal
  | list : List PyVal → PyVal
  | dict : List (String × PyVal) → PyVal

/-- Python truthiness: `None`, `False`, `0`, `""`, `[]`, `{}` are falsy. -/
def PyVal.truthy : PyVal → Bool
  | .none => false
  | .bool b => b
  | .int n => !(n == 0)
  | .str s => !(s == "")
  | .list xs => !xs.isEmpty
  | .dict es => !es.isEmpty

/-- Models the Python identity test `v is True` (only the boolean `True`
object passes; truthy non-booleans such as `1` do not). -/
def PyVal.isTrueLit : PyVal → Bool
  | .bool true => true
  | _ => false

/-- Models the Python identity test `v is None`. -/
def PyVal.isNoneLit : PyVal → Bool
  | .none => true
  | _ => false

/-- Models `isinstance(v, (int, float))`.  Python booleans are instances of
`int`; the scripts never produce float values, so floats are not modelled. -/
def PyVal.isNum : PyVal → Bool
  | .int _ => true
  | .bool _ => true
  | _ => false

/-- Numeric value used in comparisons such as `v > 0` (`True` counts as 1). -/
def PyVal.numVal : PyVal → Int
  | .int n => n
  | .bool b => cond b 1 0
  | _ => 0

/-- `d.get(k)` on a dict given as its entry list: first entry wins, absent
keys give `None`. -/
def dget (es : List (String × PyVal)) (k : String) : PyVal :=
  match es.find? (fun p => p.1 == k) with
  | some p => p.2
  | Option.none => PyVal.none

/-- `d.get(k, dflt)`. -/
def dgetD (es : List (String × PyVal)) (k : String) (dflt : PyVal) : PyVal :=
  match es.find? (fun p => p.1 == k) with
  | some p => p.2
  | Option.none => dflt

/-- Python `a or b`: the first operand if truthy, else the second. -/
def pyOr (a b : PyVal) : PyVal := if a.truthy then a else b

/-- Exceptions the modelled code can raise.  `fuel` is a model artifact used
to express the unbounded `while True` loop of `update_cache_full` as a
function; no claim is settled on a fuel-exhausted run. -/
inductive PyErr where
  /-- `RuntimeError("API error when fetching ships list: " + str(data))`;
  the offending response is carried as a value. -/
  | runtimeError : PyVal → PyErr
  /-- calling `.get`/`.items` on a non-dict. -/
  | attributeError : PyErr
  /-- comparing or iterating an unsupported type. -/
  | typeError : PyErr
  /-- model artifact: loop fuel ran out. -/
  | fuel : PyErr

/-- The price scan of `is_buyable_or_researchable` (src/main.py lines
161-171): a truthy `price`/`prices` dict with some strictly positive numeric
value, or a positive flat `price_credit`/`price_gold` field. -/
def pricePositive (es : List (String × PyVal)) : Bool :=
  (match pyOr (dget es "price") (dget es "prices") with
   | .dict pes =>
     (!pes.isEmpty) && pes.any (fun kv => kv.2.isNum && 0 < kv.2.numVal)
   | _ => false)
  || ((dget es "price_credit").isNum && 0 < (dget es "price_credit").numVal)
  || ((dget es "price_gold").isNum && 0 < (dget es "price_gold").numVal)

/-- The body of `is_buyable_or_researchable` once `sdata` is known to be a
(truthy) dict: premium and collectible/special exclusions, then the
researchable rule, then the price scan (src/main.py lines 152-172). -/
def isBuyableCore (es : List (String × PyVal)) : Bool :=
  if (dget es "is_premium").isTrueLit then false
  else if (dget es "is_collectible").truthy || (dget es "is_special").truthy then false
  else if (dget es "is_researchable").isTrueLit then true
  else pricePositive es

/-- `is_buyable_or_researchable(sdata)` (src/main.py lines 143-172).  A falsy
`sdata` is rejected up front; a truthy non-dict raises `AttributeError` at the
first `.get` call. -/
def is_buyable_or_researchable (sdata : PyVal) : Except PyErr Bool :=
  if !sdata.truthy then .ok false
  else match sdata with
    | .dict es => .ok (isBuyableCore es)
    | _ => .error .attributeError

/-- ASCII whitespace stripped by Python `int(str)` conversion. -/
def isPySpace (c : Char) : Bool :=
  c == ' ' || c == '\t' || c == '\n' || c == '\r' || c == '\x0b' || c == '\x0c'

/-- Digit tail of a Python integer literal: digits, with a single underscore
allowed between two digits. -/
def digitsToNat : List Char → Nat → Option Nat
  | [], acc => some acc
  | c :: rest, acc =>
    if c.isDigit then digitsToNat rest (acc * 10 + (c.toNat - 48))
    else if c == '_' then
      match rest with
      | d :: rest2 =>
        if d.isDigit then digitsToNat rest2 (acc * 10 + (d.toNat - 48))
        else Option.none
      | [] => Option.none
    else Option.none

/-- A nonempty digit run (first character must be a digit). -/
def parseDigits : List Char → Option Nat
  | [] => Option.none
  | c :: rest =>
    if c.isDigit then digitsToNat rest (c.toNat - 48) else Option.none

/-- Models Python `int(s)` on a string: strip whitespace, optional sign,
ASCII digits with underscore separators; anything else raises (`none`). -/
def pyIntOfStr (s : String) : Option Int :=
  let cs := ((s.toList.dropWhile isPySpace).reverse.dropWhile isPySpace).reverse
  match cs with
  | '-' :: rest => (parseDigits rest).map (fun n => -(n : Int))
  | '+' :: rest => (parseDigits rest).map (fun n => (n : Int))
  | _ => (parseDigits cs).map (fun n => (n : Int))

/-- Models `int(v)` under the bare `except` of the tier coercion: conversion
failure (strings that do not parse, dicts, lists, `None`) yields `none`. -/
def pyToInt : PyVal → Option Int
  | .int n => some n
  | .bool b => some (cond b 1 0)
  | .str s => pyIntOfStr s
  | _ => Option.none

/-- Tier resolution of `build_tiers_and_images` (src/main.py lines 185-192):
read `tier`, fall back to `level` when it `is None`, then coerce with
`int(...)` under a bare `except`. -/
def resolveTier (es : List (String × PyVal)) : Option Int :=
  let t0 := dget es "tier"
  let t := if t0.isNoneLit then dget es "level" else t0
  if t.isNoneLit then Option.none else pyToInt t

/-- `s.startswith("http")`, computed on the character list. -/
def startsHttp (s : String) : Bool :=
  "http".toList.isPrefixOf s.toList

/-- `isinstance(v, str) and v.startswith("http")`, returning the string. -/
def strHttp : PyVal → Option String
  | .str s => if startsHttp s then some s else Option.none
  | _ => Option.none

/-- First key of `ks` whose value in `ies` is truthy (the
`for key in ("large", ...)` loop over `images`). -/
def firstTruthyKey (ies : List (String × PyVal)) : List String → Option PyVal
  | [] => Option.none
  | k :: ks =>
    let u := dget ies k
    if u.truthy then some u else firstTruthyKey ies ks

/-- First value that is a string starting with `http` (the
`for v in images.values()` loop). -/
def firstHttpVal : List PyVal → Option PyVal
  | [] => Option.none
  | v :: vs =>
    match strHttp v with
    | some s => some (.str s)
    | Option.none => firstHttpVal vs

/-- First key of `ks` whose value in `es` is a string starting with `http`
(the `for candidate in ("image_small", ...)` loop). -/
def firstHttpKey (es : List (String × PyVal)) : List String → Option PyVal
  | [] => Option.none
  | k :: ks =>
    match strHttp (dget es k) with
    | some s => some (.str s)
    | Option.none => firstHttpKey es ks

/-- `guess_image_url_from_shipdata(sdata)` (src/main.py lines 92-124) for a
dict record: nested `images` variants first, then the flat
`image`/`picture`/`preview` field, then the alternate flat fields. -/
def guess_image_url_from_shipdata (es : List (String × PyVal)) : Option PyVal :=
  if !(PyVal.dict es).truthy then Option.none
  else
    let fromImages :=
      match dget es "images" with
      | .dict ies =>
        match firstTruthyKey ies ["large", "big", "small", "preview", "contour_icon"] with
        | some u => some u
        | Option.none => firstHttpVal (ies.map Prod.snd)
      | _ => Option.none
    match fromImages with
    | some u => some u
    | Option.none =>
      let image := pyOr (dget es "image") (pyOr (dget es "picture") (dget es "preview"))
      match strHttp image with
      | some s => some (.str s)
      | Option.none => firstHttpKey es ["image_small", "image_large", "icon", "contour_image"]

/-- Result of one `download_image` call: its return value, how many network
requests it issued, and the filesystem afterwards. -/
structure DlResult where
  success : Bool
  calls : Nat
  fs : List String
  deriving DecidableEq

/-- `download_image(url, out_path)` (src/main.py lines 126-140).  The
filesystem is the list of existing paths; `net u` tells whether the streamed
GET of `u` succeeds (on success the file is written).  A falsy url fails
before anything else; an existing path short-circuits with success and no
request; a truthy non-string url makes `requests.get` raise before any
request is issued, which the bare `except` turns into `False`. -/
def download_image (url : PyVal) (outPath : String) (fs : List String)
    (net : String → Bool) : DlResult :=
  if !url.truthy then ⟨false, 0, fs⟩
  else if fs.contains outPath then ⟨true, 0, fs⟩
  else match url with
    | .str u => if net u then ⟨true, 1, fs ++ [outPath]⟩ else ⟨false, 1, fs⟩
    | _ => ⟨false, 0, fs⟩

/-- Join with `", "` (used by the container cases of `pyRepr`). -/
def joinComma : List String → String
  | [] => ""
  | [x] => x
  | x :: xs => x ++ ", " ++ joinComma xs

/-- Models Python `repr` on the values the scripts handle (string escaping
subtleties aside: strings are wrapped in single quotes as is). -/
def pyRepr : PyVal → String
  | .none => "None"
  | .bool b => cond b "True" "False"
  | .int n => toString n
  | .str s => "\x27" ++ s ++ "\x27"
  | .list xs => "[" ++ joinComma (xs.attach.map (fun x => pyRepr x.1)) ++ "]"
  | .dict es =>
    "\x7b" ++
      joinComma (es.attach.map (fun p => "\x27" ++ p.1.1 ++ "\x27: " ++ pyRepr p.1.2)) ++
      "\x7d"
termination_by v => sizeOf v
decreasing_by
  all_goals simp_wf
  · have := List.sizeOf_lt_of_mem x.2
    omega
  · have h1 := List.sizeOf_lt_of_mem p.2
    have h2 : sizeOf (↑p : String × PyVal).2 < sizeOf (↑p : String × PyVal) := by
      obtain ⟨⟨a, b⟩, hp⟩ := p
      simp
    omega

/-- Models Python `str`, as used by the f-string building the image
filename: strings stay as they are, other values use their repr. -/
def pyStr : PyVal → String
  | .str s => s
  | v => pyRepr v

/-- Index of the last occurrence of `c` in `cs`, `-1` when absent. -/
def lastIdxAux (c : Char) : List Char → Int → Int → Int
  | [], _, acc => acc
  | x :: rest, i, acc => lastIdxAux c rest (i + 1) (if x == c then i else acc)

/-- Index of the last occurrence of `c`, `-1` when absent (as in
`str.rfind`). -/
def lastIdxOf (cs : List Char) (c : Char) : Int := lastIdxAux c cs 0 (-1)

/-- The extension part of `os.path.splitext(p)` on POSIX: the suffix from
the last dot, provided that dot comes after the last separator and the
basename has a non-dot character before it (so `.bashrc` has no extension). -/
def splitextExt (p : String) : String :=
  let cs := p.toList
  let sepIndex := lastIdxOf cs '/'
  let dotIndex := lastIdxOf cs '.'
  if sepIndex < dotIndex then
    let seg := (cs.take dotIndex.toNat).drop (sepIndex + 1).toNat
    if seg.any (fun c => !(c == '.')) then String.mk (cs.drop dotIndex.toNat) else ""
  else ""

/-- `url.split("?")[0]`: the prefix before the first question mark. -/
def beforeQuery (u : String) : String :=
  String.mk (u.toList.takeWhile (fun c => !(c == '?')))

/-- The four unconditional fields of `ship_entry` (src/main.py lines
198-203), in insertion order. -/
def baseShipEntry (sid : String) (es : List (String × PyVal)) (tier : Int) :
    List (String × PyVal) :=
  [("ship_id", pyOr (dget es "ship_id") (.str sid)),
   ("name", pyOr (dget es "name") (pyOr (dget es "localized_name") (dget es "ship_name"))),
   ("tier", .int tier),
   ("type", pyOr (dget es "type") (dget es "ship_type"))]

/-- The local image filename `ship_{ship_id}{ext}` derived from the resolved
image URL (src/main.py lines 209-210), with `.jpg` as default extension. -/
def imageFname (sid : String) (es : List (String × PyVal)) (u : String) : String :=
  let ext0 := splitextExt (beforeQuery u)
  let ext := if ext0 == "" then ".jpg" else ext0
  "ship_" ++ pyStr (pyOr (dget es "ship_id") (.str sid)) ++ ext

/-- `d.pop(k, None)`: the dict without the entry for `k`. -/
def dpop (es : List (String × PyVal)) (k : String) : List (String × PyVal) :=
  es.filter (fun p => !(p.1 == k))

/-- One iteration of the `for sid, s in cache.items()` loop of
`build_tiers_and_images` (src/main.py lines 184-226): tier resolution,
eligibility, summary construction, image resolution and download.  Returns
the `(tier, ship_entry)` produced (or `none` when the record is skipped) and
the filesystem afterwards; a non-dict record raises at `s.get`. -/
def processRecord (net : String → Bool) (downloadImages : Bool)
    (fs : List String) (sid : String) (s : PyVal) :
    Except PyErr (Option (Int × List (String × PyVal)) × List String) :=
  match s with
  | .dict es =>
    match resolveTier es with
    | Option.none => .ok (Option.none, fs)
    | some tier =>
      if !(decide (1 ≤ tier) && decide (tier ≤ 10)) then .ok (Option.none, fs)
      else
        match is_buyable_or_researchable (.dict es) with
        | .error e => .error e
        | .ok b =>
        if !b then .ok (Option.none, fs)
        else
          let entry0 := baseShipEntry sid es tier
          match guess_image_url_from_shipdata es with
          | Option.none => .ok (some (tier, entry0), fs)
          | some u =>
            if !u.truthy then .ok (some (tier, entry0), fs)
            else match u with
              | .str ustr =>
                let fname := imageFname sid es ustr
                let entry1 := entry0 ++ [("image_url", .str ustr), ("image", .str fname)]
                if downloadImages then
                  let outpath := "images/" ++ fname
                  if fs.contains outpath then .ok (some (tier, entry1), fs)
                  else
                    let r := download_image (.str ustr) outpath fs net
                    if r.success then .ok (some (tier, entry1), r.fs)
                    else .ok (some (tier, dpop entry1 "image"), r.fs)
                else .ok (some (tier, entry1), fs)
              | _ => .error .attributeError
  | _ => .error .attributeError

/-- The full classification loop of `build_tiers_and_images`: the produced
`(tier, ship_entry)` pairs in cache iteration order, together with the final
filesystem. -/
def buildTiersList (net : String → Bool) (downloadImages : Bool) :
    List (String × PyVal) → List String →
    Except PyErr (List (Int × List (String × PyVal)) × List String)
  | [], fs => .ok ([], fs)
  | (sid, s) :: rest, fs =>
    match processRecord net downloadImages fs sid s with
    | .error e => .error e
    | .ok (e, fs1) =>
      match buildTiersList net downloadImages rest fs1 with
      | .error e2 => .error e2
      | .ok (tl, fs2) =>
        match e with
        | some te => .ok (te :: tl, fs2)
        | Option.none => .ok (tl, fs2)

/-- The bucket `tiers[t]` produced from the processed pairs: the entries
classified at tier `t`, in iteration order. -/
def tierBucket (res : List (Int × List (String × PyVal))) (t : Int) :
    List (List (String × PyVal)) :=
  (res.filter (fun p => p.1 == t)).map Prod.snd

/-- `build_tiers_and_images(cache, download_images)` (src/main.py lines
175-232): the ten tier buckets (as a function of the tier) and the final
filesystem. -/
def build_tiers_and_images (net : String → Bool) (downloadImages : Bool)
    (cache : List (String × PyVal)) (fs : List String) :
    Except PyErr ((Int → List (List (String × PyVal))) × List String) :=
  (buildTiersList net downloadImages cache fs).map
    (fun p => (tierBucket p.1, p.2))

/-- `cache[sid] = sdata` on an insertion-ordered dict: overwrite in place
when the key exists, append otherwise. -/
def dinsert (es : List (String × PyVal)) (k : String) (v : PyVal) :
    List (String × PyVal) :=
  if es.any (fun p => p.1 == k) then
    es.map (fun p => if p.1 == k then (k, v) else p)
  else es ++ [(k, v)]

/-- Merge the `id -> record` entries of one page into the cache (the
`for sid, sdata in ships.items()` loop). -/
def mergePage (cache page : List (String × PyVal)) : List (String × PyVal) :=
  page.foldl (fun c p => dinsert c p.1 p.2) cache

/-- `data.get("status") != "ok"` negated: only the string `"ok"` passes. -/
def statusOk : PyVal → Bool
  | .str s => s == "ok"
  | _ => false

/-- Python `page >= page_total` where `page` is an int and `page_total` came
from JSON: ints and bools compare numerically, anything else raises
`TypeError`. -/
def pyGeInt (a : Int) : PyVal → Except PyErr Bool
  | .int n => .ok (decide (n ≤ a))
  | .bool b => .ok (decide (cond b 1 0 ≤ a))
  | _ => .error .typeError

/-- The `while True` loop of `update_cache_full` (src/main.py lines 63-78),
with explicit fuel for the unbounded loop.  `api page` is the parsed JSON of
`get_ships_page(page_no=page)`.  Returns the accumulated cache and the number
of list calls issued. -/
def updateCacheLoop (api : Nat → PyVal) :
    Nat → Nat → List (String × PyVal) → Nat →
    Except PyErr (List (String × PyVal) × Nat)
  | 0, _, _, _ => .error .fuel
  | f + 1, page, cache, calls =>
    match api page with
    | .dict des =>
      if !statusOk (dget des "status") then .error (.runtimeError (.dict des))
      else
        match dgetD des "data" (.dict []) with
        | .dict ses =>
          let cache1 := mergePage cache ses
          match dgetD des "meta" (.dict []) with
          | .dict mes =>
            match pyGeInt (page : Int) (dgetD mes "page_total" (.int 1)) with
            | .error e => .error e
            | .ok true => .ok (cache1, calls + 1)
            | .ok false => updateCacheLoop api f (page + 1) cache1 (calls + 1)
          | _ => .error .attributeError
        | _ => .error .attributeError
    | _ => .error .attributeError

/-- `update_cache_full()` (src/main.py lines 56-81): start at page 1 with an
empty cache. -/
def update_cache_full (api : Nat → PyVal) (fuel : Nat) :
    Except PyErr (List (String × PyVal) × Nat) :=
  updateCacheLoop api fuel 1 [] 0

/-- A well-formed `"ok"` list response carrying `data` entries and a
`page_total`, as returned by the encyclopedia list endpoint. -/
def mkListResp (d : List (String × PyVal)) (pageTotal : Int) : PyVal :=
  .dict [("status", .str "ok"), ("data", .dict d),
         ("meta", .dict [("page_total", .int pageTotal)])]

/-- `needle` occurs as a contiguous substring of `hay`. -/
def strHasSub (needle : List Char) : List Char → Bool
  | [] => needle.isEmpty
  | c :: rest => needle.isPrefixOf (c :: rest) || strHasSub needle rest

/-- Models Python `"ship_id" in v`: key lookup for dicts, membership for
lists, substring for strings, `TypeError` otherwise. -/
def pyInShipId : PyVal → Except PyErr Bool
  | .dict es => .ok (es.any (fun p => p.1 == "ship_id"))
  | .list xs =>
    .ok (xs.any (fun x => match x with | .str s => s == "ship_id" | _ => false))
  | .str s => .ok (strHasSub "ship_id".toList s.toList)
  | _ => .error .typeError

/-- `any("ship_id" in v for v in cache.values())` with the short-circuiting
of Python `any` (a crash in a later element is never reached). -/
def anyHasShipId : List (String × PyVal) → Except PyErr Bool
  | [] => .ok false
  | (_, v) :: rest => do
    let b ← pyInShipId v
    if b then pure true else anyHasShipId rest

/-- The structural check in `main` (src/main.py line 244):
`not isinstance(cache, dict) or not any("ship_id" in v for v in
cache.values())` — true means the cache is considered malformed and
`update_cache_full` is invoked. -/
def mainCacheCheckFails (cache : PyVal) : Except PyErr Bool :=
  match cache with
  | .dict es =>
    match anyHasShipId es with
    | .ok b => .ok (!b)
    | .error e => .error e
  | _ => .ok true

/-- Whether the pipeline `load_or_update_cache(force_update=False)` followed
by the structural check in `main` invokes `update_cache_full`, given the cache
file (`none` = file absent; `some PyVal.none` = file holding JSON `null`,
which `load_or_update_cache` also rebuilds via `cache is None`).
Src/main.py lines 83-89 and 240-246. -/
def cacheRebuildTriggered (file : Option PyVal) : Except PyErr Bool :=
  match file with
  | Option.none => .ok true
  | some c =>
    if c.isNoneLit then .ok true
    else mainCacheCheckFails c

/-- Outcome of `fetch_and_save_ship` in src/get.py. -/
inductive FetchOutcome where
  /-- the output file already exists: print skip message, save nothing. -/
  | skippedExisting : FetchOutcome
  /-- response status is not `"ok"`: print the failure warning with the
  response, save nothing, return. -/
  | statusNotOk : FetchOutcome
  /-- response saved to `ships_data/{name}.json`. -/
  | saved : FetchOutcome
  /-- an exception inside the `try` block was caught and reported. -/
  | caught : FetchOutcome
  deriving DecidableEq

/-- `fetch_and_save_ship(ship_name, ship_id)` (src/get.py lines 48-78).
`fileExists` is `os.path.exists` on the output path; `resp` is the parsed
JSON of the detail call, `none` when the request or JSON decoding raised
(caught by the bare `except`). -/
def fetch_and_save_ship (fileExists : Bool) (resp : Option PyVal) : FetchOutcome :=
  if fileExists then .skippedExisting
  else match resp with
    | Option.none => .caught
    | some d =>
      match d with
      | .dict des => if !statusOk (dget des "status") then .statusNotOk else .saved
      | _ => .caught

/-! ## Helper lemmas -/

/-- On a dict, `is_buyable_or_researchable` never raises and agrees with
`isBuyableCore` (an empty dict is falsy and `isBuyableCore [] = false`). -/
theorem is_buyable_dict (es : List (String × PyVal)) :
    is_buyable_or_researchable (.dict es) = .ok (isBuyableCore es) := by
  cases es <;> rfl

/-! ## C1: the premium flag short-circuits everything else -/

/-- C1: for every record whose `is_premium` field is the boolean `True`,
`is_buyable_or_researchable` returns `False` regardless of every other field
(the premium check fires before the researchable and price checks). -/
theorem c1_premium_short_circuits (es : List (String × PyVal))
    (h : dget es "is_premium" = PyVal.bool true) :
    is_buyable_or_researchable (PyVal.dict es) = .ok false := by
  rw [is_buyable_dict]
  unfold isBuyableCore
  rw [h]
  rfl

/-- C1 witness: the scenario record of the spec,
`{id:"200", tier:5, is_premium:true, price:{credit:1000000}}` is classified
not eligible despite its strictly positive credit price. -/
theorem c1_premium_short_circuits_witness :
    is_buyable_or_researchable (PyVal.dict
      [("id", .str "200"), ("tier", .int 5), ("is_premium", .bool true),
       ("price", .dict [("credit", .int 1000000)])]) = .ok false :=
  c1_premium_short_circuits _ rfl

/-! ## C10: the url check comes before the output-path check -/

/-- C10: `download_image` returns failure for every falsy url (`None` or the
empty string), with no network call and an unchanged filesystem, even when
the output path already exists. -/
theorem c10_falsy_url_fails_first (url : PyVal) (outPath : String)
    (fs : List String) (net : String → Bool) (h : url.truthy = false) :
    download_image url outPath fs net = ⟨false, 0, fs⟩ := by
  unfold download_image
  rw [h]
  rfl

/-- C10 witness: with `url = None` and an already existing output path the
call still fails and issues no request. -/
theorem c10_falsy_url_fails_first_witness :
    ["p"].contains "p" = true ∧
    download_image PyVal.none "p" ["p"] (fun _ => true) = ⟨false, 0, ["p"]⟩ :=
  ⟨rfl, c10_falsy_url_fails_first PyVal.none "p" ["p"] (fun _ => true) rfl⟩

/-! ## C6: mirror idempotence holds only for truthy urls -/

/-- C6 counterexample: the claim quantifies over *every* url, but for the
(falsy) empty-string url `download_image` returns failure even though the
output path already exists, because the url check runs first. -/
theorem c6_counterexample :
    ["p"].contains "p" = true ∧
    (download_image (PyVal.str "") "p" ["p"] (fun _ => true)).success = false :=
  ⟨rfl, rfl⟩

/-- C6 (amended): for every *truthy* url, if the output path already exists
then `download_image` returns success without any network request and leaves
the filesystem unchanged, so a second call behaves identically. -/
theorem c6_mirror_idempotent (url : PyVal) (outPath : String)
    (fs : List String) (net : String → Bool)
    (hu : url.truthy = true) (hp : fs.contains outPath = true) :
    download_image url outPath fs net = ⟨true, 0, fs⟩ ∧
    download_image url outPath (download_image url outPath fs net).fs net =
      ⟨true, 0, fs⟩ := by
  have h1 : download_image url outPath fs net = ⟨true, 0, fs⟩ := by
    unfold download_image
    rw [hu, hp]
    rfl
  exact ⟨h1, by rw [h1]; exact h1⟩

/-- C6 witness: a concrete truthy url and existing path, called twice. -/
theorem c6_mirror_idempotent_witness :
    download_image (PyVal.str "http://x/a.png") "p" ["p"] (fun _ => true) =
      ⟨true, 0, ["p"]⟩ ∧
    download_image (PyVal.str "http://x/a.png") "p"
      (download_image (PyVal.str "http://x/a.png") "p" ["p"] (fun _ => true)).fs
      (fun _ => true) = ⟨true, 0, ["p"]⟩ :=
  c6_mirror_idempotent (PyVal.str "http://x/a.png") "p" ["p"] (fun _ => true) rfl rfl

/-! ## C2: cache validation is an *any*, not an *every* -/

/-- C2 counterexample: a loaded cache in which value `"b"` lacks an
identifier while value `"a"` has one.  The claim says such a cache must
trigger a rebuild; the check `any("ship_id" in v ...)` in the code accepts it
(`.ok false` = no rebuild is invoked). -/
theorem c2_counterexample :
    pyInShipId (PyVal.dict []) = .ok false ∧
    cacheRebuildTriggered (some (PyVal.dict
      [("a", .dict [("ship_id", .int 1)]), ("b", .dict [])])) = .ok false :=
  ⟨rfl, rfl⟩

/-- C2 (amended): the pipeline accepts a loaded cache without invoking
`update_cache_full` exactly when the cache file is present, holds a mapping,
and *at least one* value contains a `"ship_id"` key; an absent file, a
non-mapping, or a mapping none of whose values carries an identifier all
trigger the full rebuild. -/
theorem c2_rebuild_iff_no_identifier (file : Option PyVal) :
    cacheRebuildTriggered file = .ok false ↔
      ∃ es, file = some (PyVal.dict es) ∧ anyHasShipId es = .ok true := by
  cases file with
  | none => simp [cacheRebuildTriggered]
  | some c =>
    cases c with
    | dict es =>
      simp only [cacheRebuildTriggered, PyVal.isNoneLit, mainCacheCheckFails,
        if_false, Option.some.injEq]
      cases h : anyHasShipId es with
      | ok b =>
        cases b <;>
          simp [h, PyVal.dict.injEq]
      | error e => simp [h]
    | none => simp [cacheRebuildTriggered, PyVal.isNoneLit]
    | bool b => simp [cacheRebuildTriggered, PyVal.isNoneLit, mainCacheCheckFails]
    | int n => simp [cacheRebuildTriggered, PyVal.isNoneLit, mainCacheCheckFails]
    | str s => simp [cacheRebuildTriggered, PyVal.isNoneLit, mainCacheCheckFails]
    | list xs => simp [cacheRebuildTriggered, PyVal.isNoneLit, mainCacheCheckFails]

/-! ## C8: the Fletcher scenario -/

/-- C8: a cache entry keyed `"100"` with `tier:5`, `is_researchable:true`,
`name:"Fletcher"` and no type, image or price fields produces exactly one
summary, placed at tier 5, with identifier `"100"` taken from the cache key,
name `"Fletcher"`, tier 5, type `None`, and no image fields; the tier-5
bucket holds exactly that summary. -/
theorem c8_fletcher_scenario :
    buildTiersList (fun _ => false) true
      [("100", PyVal.dict [("tier", .int 5), ("is_researchable", .bool true),
                           ("name", .str "Fletcher")])] [] =
      .ok ([(5, [("ship_id", .str "100"), ("name", .str "Fletcher"),
                 ("tier", .int 5), ("type", .none)])], []) ∧
    tierBucket [(5, [("ship_id", PyVal.str "100"), ("name", PyVal.str "Fletcher"),
                 ("tier", PyVal.int 5), ("type", PyVal.none)])] 5 =
      [[("ship_id", .str "100"), ("name", .str "Fletcher"),
        ("tier", .int 5), ("type", .none)]] :=
  ⟨rfl, rfl⟩

/-- Unfolding lemma: the classification loop on the empty cache. -/
theorem buildTiersList_nil (net : String → Bool) (dl : Bool) (fs : List String) :
    buildTiersList net dl [] fs = .ok ([], fs) := rfl

/-- Unfolding lemma: one step of the classification loop. -/
theorem buildTiersList_cons (net : String → Bool) (dl : Bool) (sid : String)
    (s : PyVal) (rest : List (String × PyVal)) (fs : List String) :
    buildTiersList net dl ((sid, s) :: rest) fs =
      match processRecord net dl fs sid s with
      | .error e => .error e
      | .ok (e, fs1) =>
        match buildTiersList net dl rest fs1 with
        | .error e2 => .error e2
        | .ok (tl, fs2) =>
          match e with
          | some te => .ok (te :: tl, fs2)
          | Option.none => .ok (tl, fs2) := rfl

/-! ## C5: non-numeric or out-of-range tiers are excluded -/

/-- C5: a record whose resolved tier (the `tier` field with `level`
fallback) does not coerce to an integer, or coerces outside 1..10, is
skipped by the classification loop: it contributes nothing to any tier
bucket and leaves the filesystem untouched, independently of its
eligibility fields. -/
theorem c5_bad_tier_excluded (net : String → Bool) (dl : Bool) (sid : String)
    (es rest : List (String × PyVal)) (fs : List String)
    (h : ∀ t, resolveTier es = some t → ¬(1 ≤ t ∧ t ≤ 10)) :
    buildTiersList net dl ((sid, PyVal.dict es) :: rest) fs =
      buildTiersList net dl rest fs := by
  have hp : processRecord net dl fs sid (.dict es) = .ok (Option.none, fs) := by
    unfold processRecord
    cases ht : resolveTier es with
    | none => simp [ht]
    | some t =>
      have hnr := h t ht
      have hb : (decide (1 ≤ t) && decide (t ≤ 10)) = false := by
        rcases not_and_or.mp hnr with h1 | h1 <;> simp [decide_eq_false h1]
      simp [ht, hb]
  rw [buildTiersList_cons, hp]
  dsimp only
  cases hr : buildTiersList net dl rest fs with
  | ok p =>
    obtain ⟨tl, fs2⟩ := p
    rfl
  | error e => rfl

/-- C5 witness: a record with `tier = 11` and one with `tier = "abc"` both
land in no bucket (the classification result is that of the empty cache). -/
theorem c5_bad_tier_excluded_witness :
    buildTiersList (fun _ => false) true
      [("x", PyVal.dict [("tier", .int 11), ("is_researchable", .bool true)])] [] =
      .ok ([], []) ∧
    buildTiersList (fun _ => false) true
      [("y", PyVal.dict [("tier", .str "abc"), ("is_researchable", .bool true)])] [] =
      .ok ([], []) := by
  constructor
  · exact (c5_bad_tier_excluded (fun _ => false) true "x"
      [("tier", .int 11), ("is_researchable", .bool true)] [] []
      (by
        intro t ht
        rw [show resolveTier [("tier", .int 11), ("is_researchable", .bool true)] =
          some 11 from rfl] at ht
        simp only [Option.some.injEq] at ht
        omega)).trans rfl
  · exact (c5_bad_tier_excluded (fun _ => false) true "y"
      [("tier", .str "abc"), ("is_researchable", .bool true)] [] []
      (by
        intro t ht
        rw [show resolveTier [("tier", .str "abc"), ("is_researchable", .bool true)] =
          Option.none from rfl] at ht
        exact Option.noConfusion ht)).trans rfl

/-! ## C9: `is True` identity, not truthiness -/

/-- C9: both flag tests compare by identity with the boolean `True`.  For a
record whose `is_premium` is a truthy non-boolean the premium exclusion does
not fire: with `is_researchable` genuinely `True` the record is eligible, and
with `is_researchable` itself a truthy non-boolean the researchable rule does
not fire either and eligibility is exactly the price-scan outcome. -/
theorem c9_identity_not_truthiness (es : List (String × PyVal)) (v : PyVal)
    (hv : dget es "is_premium" = v) (hvt : v.truthy = true)
    (hvb : ∀ b, v ≠ PyVal.bool b)
    (hc : (dget es "is_collectible").truthy = false)
    (hs : (dget es "is_special").truthy = false) :
    (dget es "is_researchable" = PyVal.bool true →
      is_buyable_or_researchable (PyVal.dict es) = .ok true) ∧
    (∀ w, dget es "is_researchable" = w → w.truthy = true →
      (∀ b, w ≠ PyVal.bool b) →
      is_buyable_or_researchable (PyVal.dict es) = .ok (pricePositive es)) := by
  have hprem : (dget es "is_premium").isTrueLit = false := by
    rw [hv]
    cases v <;> first | rfl | exact absurd rfl (hvb _)
  constructor
  · intro hres
    rw [is_buyable_dict]
    unfold isBuyableCore
    rw [hprem, hc, hs, hres]
    rfl
  · intro w hw hwt hwb
    have hres : (dget es "is_researchable").isTrueLit = false := by
      rw [hw]
      cases w <;> first | rfl | exact absurd rfl (hwb _)
    rw [is_buyable_dict]
    unfold isBuyableCore
    rw [hprem, hc, hs, hres]
    rfl

/-- C9 witness: with `is_premium = 1` (truthy integer) the premium exclusion
does not fire; with `is_researchable = 1` the researchable rule does not
fire, so eligibility falls through to the price check. -/
theorem c9_identity_not_truthiness_witness :
    is_buyable_or_researchable (PyVal.dict
      [("is_premium", .int 1), ("is_researchable", .bool true)]) = .ok true ∧
    is_buyable_or_researchable (PyVal.dict
      [("is_premium", .int 1), ("is_researchable", .int 1)]) = .ok false ∧
    is_buyable_or_researchable (PyVal.dict
      [("is_premium", .int 1), ("is_researchable", .int 1),
       ("price", .dict [("credit", .int 100)])]) = .ok true := by
  refine ⟨?_, ?_, ?_⟩
  · exact (c9_identity_not_truthiness
      [("is_premium", .int 1), ("is_researchable", .bool true)] (.int 1) rfl rfl
      (fun b hb => PyVal.noConfusion hb) rfl rfl).1 rfl
  · exact ((c9_identity_not_truthiness
      [("is_premium", .int 1), ("is_researchable", .int 1)] (.int 1) rfl rfl
      (fun b hb => PyVal.noConfusion hb) rfl rfl).2 (.int 1) rfl rfl
      (fun b hb => PyVal.noConfusion hb)).trans rfl
  · exact ((c9_identity_not_truthiness
      [("is_premium", .int 1), ("is_researchable", .int 1),
       ("price", .dict [("credit", .int 100)])] (.int 1) rfl rfl
      (fun b hb => PyVal.noConfusion hb) rfl rfl).2 (.int 1) rfl rfl
      (fun b hb => PyVal.noConfusion hb)).trans rfl

/-! ## C7: non-"ok" status surfaces as an error -/

/-- Unfolding lemma: one iteration of the `update_cache_full` loop. -/
theorem updateCacheLoop_succ (api : Nat → PyVal) (f page : Nat)
    (cache : List (String × PyVal)) (calls : Nat) :
    updateCacheLoop api (f + 1) page cache calls =
      match api page with
      | .dict des =>
        if !statusOk (dget des "status") then .error (.runtimeError (.dict des))
        else
          match dgetD des "data" (.dict []) with
          | .dict ses =>
            let cache1 := mergePage cache ses
            match dgetD des "meta" (.dict []) with
            | .dict mes =>
              match pyGeInt (page : Int) (dgetD mes "page_total" (.int 1)) with
              | .error e => .error e
              | .ok true => .ok (cache1, calls + 1)
              | .ok false => updateCacheLoop api f (page + 1) cache1 (calls + 1)
            | _ => .error .attributeError
          | _ => .error .attributeError
      | _ => .error .attributeError := rfl

/-- C7: when the first list response reports a status other than `"ok"`,
`update_cache_full` raises the `RuntimeError` carrying that response (the
rebuild aborts with a descriptive message), and `fetch_and_save_ship`
reports the failure and saves nothing (`statusNotOk`) rather than
succeeding silently. -/
theorem c7_remote_error_surfaces (api : Nat → PyVal)
    (des des2 : List (String × PyVal)) (f : Nat)
    (h1 : api 1 = PyVal.dict des)
    (h2 : statusOk (dget des "status") = false)
    (h3 : statusOk (dget des2 "status") = false) :
    update_cache_full api (f + 1) = .error (.runtimeError (PyVal.dict des)) ∧
    fetch_and_save_ship false (some (PyVal.dict des2)) = .statusNotOk := by
  constructor
  · unfold update_cache_full
    rw [updateCacheLoop_succ, h1]
    dsimp only
    rw [h2]
    rfl
  · unfold fetch_and_save_ship
    dsimp only
    rw [h3]
    rfl

/-- C7 witness: a response with status `"error"` aborts the rebuild with the
RuntimeError and makes the detail fetch report a failure. -/
theorem c7_remote_error_surfaces_witness :
    update_cache_full (fun _ => PyVal.dict [("status", .str "error")]) 1 =
      .error (.runtimeError (PyVal.dict [("status", .str "error")])) ∧
    fetch_and_save_ship false (some (PyVal.dict [("status", .str "error")])) =
      .statusNotOk :=
  c7_remote_error_surfaces (fun _ => PyVal.dict [("status", .str "error")])
    [("status", .str "error")] [("status", .str "error")] 0 rfl rfl rfl

/-! ## C3: a failed mirror drops only the local filename field -/

/-- C3 counterexample: for a record whose image URL resolves but whose
download fails, the produced summary still *contains* the image URL field
(`image_url`); only the local filename field (`image`) is dropped, because
the code pops just `"image"`.  This refutes the claim that both image fields
are removed. -/
theorem c3_counterexample :
    buildTiersList (fun _ => false) true
      [("1", PyVal.dict [("tier", .int 5), ("is_researchable", .bool true),
                         ("name", .str "A"), ("image", .str "http://e/a.png")])] [] =
      .ok ([(5, [("ship_id", .str "1"), ("name", .str "A"),
                 ("tier", .int 5), ("type", .none),
                 ("image_url", .str "http://e/a.png")])], []) ∧
    dget [("ship_id", PyVal.str "1"), ("name", PyVal.str "A"),
          ("tier", PyVal.int 5), ("type", PyVal.none),
          ("image_url", PyVal.str "http://e/a.png")] "image_url" =
      PyVal.str "http://e/a.png" :=
  ⟨rfl, rfl⟩

/-- C3 (amended): when the image URL of a record is resolved but the download
fails, the partitioner drops only the local image filename field from the
summary, keeps the image URL field and all non-image fields, and still
appends the summary to the bucket of the tier of the record; the failed fetch
never removes the record and leaves the filesystem unchanged. -/
theorem c3_failed_mirror_keeps_url (net : String → Bool) (sid : String)
    (es rest : List (String × PyVal)) (fs : List String) (t : Int) (u : String)
    (ht : resolveTier es = some t) (h1 : 1 ≤ t) (h2 : t ≤ 10)
    (hb : isBuyableCore es = true)
    (hg : guess_image_url_from_shipdata es = some (PyVal.str u))
    (hu : (PyVal.str u).truthy = true)
    (hout : fs.contains ("images/" ++ imageFname sid es u) = false)
    (hnet : net u = false) :
    buildTiersList net true ((sid, PyVal.dict es) :: rest) fs =
      (buildTiersList net true rest fs).map
        (fun p =>
          ((t, baseShipEntry sid es t ++ [("image_url", PyVal.str u)]) :: p.1,
           p.2)) := by
  have hdpop :
      dpop (baseShipEntry sid es t ++
        [("image_url", PyVal.str u), ("image", PyVal.str (imageFname sid es u))])
        "image" = baseShipEntry sid es t ++ [("image_url", PyVal.str u)] := by
    simp [dpop, baseShipEntry]
  have hdl :
      download_image (PyVal.str u) ("images/" ++ imageFname sid es u) fs net =
        ⟨false, 1, fs⟩ := by
    unfold download_image
    rw [hu, hout]
    dsimp only
    rw [hnet]
    rfl
  have hpr : processRecord net true fs sid (.dict es) =
      .ok (some (t, baseShipEntry sid es t ++ [("image_url", PyVal.str u)]), fs) := by
    unfold processRecord
    dsimp only
    rw [ht]
    dsimp only
    have hrange : (decide (1 ≤ t) && decide (t ≤ 10)) = true := by
      simp [h1, h2]
    rw [hrange, is_buyable_dict, hb, hg]
    dsimp only
    rw [hu, hout, hdl, hdpop]
    rfl
  rw [buildTiersList_cons, hpr]
  dsimp only
  cases hr : buildTiersList net true rest fs with
  | ok p =>
    obtain ⟨tl, fs2⟩ := p
    rfl
  | error e => rfl

/-- C3 witness: the concrete failing-download record, run through the
amended theorem. -/
theorem c3_failed_mirror_keeps_url_witness :
    buildTiersList (fun _ => false) true
      [("1", PyVal.dict [("tier", .int 5), ("is_researchable", .bool true),
                         ("name", .str "A"), ("image", .str "http://e/a.png")])] [] =
      .ok ([(5, [("ship_id", .str "1"), ("name", .str "A"),
                 ("tier", .int 5), ("type", .none),
                 ("image_url", .str "http://e/a.png")])], []) :=
  (c3_failed_mirror_keeps_url (fun _ => false) "1"
    [("tier", .int 5), ("is_researchable", .bool true), ("name", .str "A"),
     ("image", .str "http://e/a.png")] [] [] 5 "http://e/a.png"
    rfl (by decide) (by decide) rfl rfl rfl rfl rfl).trans rfl

/-! ## C4: pagination of the cache rebuild -/

/-- A `cache[sid] = sdata` assignment for a key absent from the cache is an
append. -/
theorem dinsert_fresh (es : List (String × PyVal)) (k : String) (v : PyVal)
    (h : es.any (fun p => p.1 == k) = false) :
    dinsert es k v = es ++ [(k, v)] := by
  unfold dinsert
  rw [h]
  rfl

/-- Merging a page whose identifiers are fresh for the accumulated cache
(and mutually distinct) appends its entries in order. -/
theorem mergePage_fresh (page : List (String × PyVal)) :
    ∀ acc, (page.map Prod.fst).Nodup →
      (∀ k, k ∈ page.map Prod.fst → k ∉ acc.map Prod.fst) →
      mergePage acc page = acc ++ page := by
  induction page with
  | nil =>
    intro acc _ _
    simp [mergePage]
  | cons p rest ih =>
    intro acc hnd hdisj
    obtain ⟨k, v⟩ := p
    rw [List.map_cons] at hnd
    have hknotrest : k ∉ rest.map Prod.fst := (List.nodup_cons.mp hnd).1
    have hnd' : (rest.map Prod.fst).Nodup := (List.nodup_cons.mp hnd).2
    have hkacc := hdisj k (by simp)
    have hk : acc.any (fun q => q.1 == k) = false := by
      rw [List.any_eq_false]
      intro q hq hqk
      rw [beq_iff_eq] at hqk
      exact hkacc (hqk ▸ List.mem_map_of_mem Prod.fst hq)
    have step : mergePage acc ((k, v) :: rest) = mergePage (acc ++ [(k, v)]) rest := by
      unfold mergePage
      simp only [List.foldl_cons]
      rw [dinsert_fresh _ _ _ hk]
    rw [step, ih (acc ++ [(k, v)]) hnd' ?_]
    · simp
    · intro k2 hk2
      simp only [List.map_append, List.mem_append, List.map_cons, List.map_nil,
        List.mem_singleton, not_or]
      constructor
      · exact hdisj k2 (by simp [hk2])
      · intro hkk
        exact hknotrest (hkk ▸ hk2)

/-- One loop iteration against a well-formed `"ok"` response: the entries
of the page are merged and the loop continues or stops on the `page_total`
comparison. -/
theorem updateCacheLoop_mkresp (api : Nat → PyVal) (f page : Nat)
    (cache : List (String × PyVal)) (calls : Nat)
    (d : List (String × PyVal)) (pt : Int) (h : api page = mkListResp d pt) :
    updateCacheLoop api (f + 1) page cache calls =
      match pyGeInt ((page : Nat) : Int) (PyVal.int pt) with
      | .error e => .error e
      | .ok true => Except.ok (mergePage cache d, calls + 1)
      | .ok false =>
        updateCacheLoop api f (page + 1) (mergePage cache d) (calls + 1) := by
  rw [updateCacheLoop_succ, h]
  rfl

/-- An iteration that reaches `page >= page_total` stops with the merged
cache, counting its own list call. -/
theorem updateCacheLoop_stop (api : Nat → PyVal) (f page : Nat)
    (cache : List (String × PyVal)) (calls : Nat)
    (d : List (String × PyVal)) (pt : Int) (h : api page = mkListResp d pt)
    (hstop : pt ≤ (page : Int)) :
    updateCacheLoop api (f + 1) page cache calls =
      .ok (mergePage cache d, calls + 1) := by
  rw [updateCacheLoop_mkresp api f page cache calls d pt h]
  rw [show pyGeInt ((page : Nat) : Int) (PyVal.int pt) =
    Except.ok (decide (pt ≤ ((page : Nat) : Int))) from rfl]
  rw [decide_eq_true hstop]

/-- An iteration below `page_total` merges the page and moves to the next
page number. -/
theorem updateCacheLoop_go (api : Nat → PyVal) (f page : Nat)
    (cache : List (String × PyVal)) (calls : Nat)
    (d : List (String × PyVal)) (pt : Int) (h : api page = mkListResp d pt)
    (hgo : ¬ pt ≤ (page : Int)) :
    updateCacheLoop api (f + 1) page cache calls =
      updateCacheLoop api f (page + 1) (mergePage cache d) (calls + 1) := by
  rw [updateCacheLoop_mkresp api f page cache calls d pt h]
  rw [show pyGeInt ((page : Nat) : Int) (PyVal.int pt) =
    Except.ok (decide (pt ≤ ((page : Nat) : Int))) from rfl]
  rw [decide_eq_false hgo]

/-- C4: the rebuild requests pages from page 1, merges the entries of each
page (`id -> record`) into one mapping, and stops exactly when the page
number reaches the reported `page_total`.  With `page_total = 2` it issues
exactly 2 list calls and the cache is the union of the entries of both pages (in
page order); with `page_total = 1` it stops after exactly 1 call. -/
theorem c4_pagination_merges (api api2 : Nat → PyVal)
    (d0 d1 d2 : List (String × PyVal)) (f g : Nat)
    (h1 : api 1 = mkListResp d1 2) (h2 : api 2 = mkListResp d2 2)
    (hn1 : (d1.map Prod.fst).Nodup) (hn2 : (d2.map Prod.fst).Nodup)
    (hdisj : ∀ k, k ∈ d2.map Prod.fst → k ∉ d1.map Prod.fst)
    (h0 : api2 1 = mkListResp d0 1) (hn0 : (d0.map Prod.fst).Nodup) :
    update_cache_full api (f + 2) = .ok (d1 ++ d2, 2) ∧
    update_cache_full api2 (g + 1) = .ok (d0, 1) := by
  constructor
  · unfold update_cache_full
    show updateCacheLoop api ((f + 1) + 1) 1 [] 0 = _
    rw [updateCacheLoop_go api (f + 1) 1 [] 0 d1 2 h1 (by norm_num)]
    rw [updateCacheLoop_stop api f 2 (mergePage [] d1) 1 d2 2 h2 (by norm_num)]
    rw [mergePage_fresh d1 [] hn1 (by simp)]
    rw [List.nil_append]
    rw [mergePage_fresh d2 d1 hn2 hdisj]
  · unfold update_cache_full
    rw [updateCacheLoop_stop api2 g 1 [] 0 d0 1 h0 (by norm_num)]
    rw [mergePage_fresh d0 [] hn0 (by simp)]
    rw [List.nil_append]

/-- C4 witness: a concrete 2-page catalog (`page_total = 2`) yields exactly
2 list calls and the union cache, and a 1-page catalog stops after 1 call. -/
theorem c4_pagination_merges_witness :
    update_cache_full
      (fun n => if n == 1 then mkListResp [("a", .int 1)] 2
                else mkListResp [("b", .int 2)] 2) 2 =
      .ok ([("a", PyVal.int 1), ("b", PyVal.int 2)], 2) ∧
    update_cache_full (fun _ => mkListResp [("c", .int 3)] 1) 1 =
      .ok ([("c", PyVal.int 3)], 1) :=
  c4_pagination_merges
    (fun n => if n == 1 then mkListResp [("a", .int 1)] 2
              else mkListResp [("b", .int 2)] 2)
    (fun _ => mkListResp [("c", .int 3)] 1)
    [("c", .int 3)] [("a", .int 1)] [("b", .int 2)] 0 0
    rfl rfl (by decide) (by decide) (by decide) rfl (by decide)
